import Mathlib

/-!
Verification of the Drivorent client against its specification.

The development shallowly embeds the booking/credit ledger and the image
verification workflow of the repository.  Currency amounts are JavaScript
numbers in the source; they are modelled as rationals, so that the literal
arithmetic of the source (`totalPrice * 0.9`, `Math.min`, `Math.max`) is
exact.  Stateful React handlers become pure functions from an explicit
application state to a new application state.
-/

namespace Drivorent

/-- BookingStatus enum, from types.ts. -/
inductive BookingStatus
  | pending
  | confirmed
  | inProgress
  | finished
  | cancelled
deriving DecidableEq

/-- VerificationStatus union, from types.ts. -/
inductive VerificationStatus
  | pending
  | verified
  | rejected
deriving DecidableEq

/-- VehicleCategory enum, from types.ts. -/
inductive VehicleCategory
  | luxury
  | electric
  | suv
  | standard
  | motorcycle
deriving DecidableEq

/-- Vehicle.features record, from types.ts. -/
structure VehicleFeatures where
  transmission : String
  fuel : String
  passengers : ℤ
  hasAC : Bool
  hasGPS : Bool
  hasBluetooth : Bool
  hasReverseCamera : Bool
  hasAndroidAuto : Bool
  hasSunroof : Bool
  hasBabySeat : Bool
  is4x4 : Bool
deriving DecidableEq

/-- Vehicle.discounts record, from types.ts. -/
structure VehicleDiscounts where
  weekly : ℚ
  biweekly : ℚ
  monthly : ℚ
deriving DecidableEq

/-- Vehicle.verification.documents record, from types.ts. -/
structure VerificationDocuments where
  ownershipCard : String
  soat : String
deriving DecidableEq

/-- Vehicle.verification.gallery record, from types.ts. -/
structure VerificationGallery where
  front : String
  back : String
  sideRight : String
  sideLeft : String
  interiorDashboard : String
  interiorSeats : String
deriving DecidableEq

/-- Vehicle.verification record, from types.ts. -/
structure VehicleVerification where
  documents : VerificationDocuments
  gallery : VerificationGallery
deriving DecidableEq

/-- Vehicle record, from types.ts. -/
structure Vehicle where
  id : String
  ownerId : String
  make : String
  model : String
  year : ℤ
  category : VehicleCategory
  pricePerDay : ℚ
  imageUrl : String
  location : String
  isAvailable : Bool
  verificationStatus : VerificationStatus
  features : VehicleFeatures
  discounts : Option VehicleDiscounts
  verification : Option VehicleVerification
deriving DecidableEq

/-- Booking.review record, from types.ts. -/
structure Review where
  rating : ℤ
  comment : String
  createdAt : String
deriving DecidableEq

/-- Booking record, from types.ts. -/
structure Booking where
  id : String
  vehicleId : String
  renterId : String
  startDate : String
  endDate : String
  totalPrice : ℚ
  status : BookingStatus
  vehicleSnapshot : Vehicle
  review : Option Review
deriving DecidableEq

/-- Top-level mutable state of the App component (part_000, lines 1627-1644):
the vehicles list, the bookings list and the userCredits balance.  The
remaining slices of App state (user record, filter context) are not touched
by any claim and are omitted. -/
structure AppState where
  vehicles : List Vehicle
  bookings : List Booking
  userCredits : ℚ
deriving DecidableEq

/-! ### Checkout arithmetic (VehicleDetailPage, part_000 lines 579-581) -/

/-- Credit deduction computed at checkout (part_000 line 580):
useCredits ? Math.min(userCredits, totalPrice) : 0. -/
def creditDeduction (useCredits : Bool) (userCredits totalPrice : ℚ) : ℚ :=
  if useCredits then min userCredits totalPrice else 0

/-- Card charge computed at checkout (part_000 line 581):
totalPrice - creditDeduction. -/
def cardCharge (useCredits : Bool) (userCredits totalPrice : ℚ) : ℚ :=
  totalPrice - creditDeduction useCredits userCredits totalPrice

/-! ### App-level handlers (part_000 lines 1646-1689) -/

/-- The booking record built by handleBook (part_000 lines 1647-1656): a fresh
id, the current date range, totalPrice = vehicle.pricePerDay, status
Confirmed, and a snapshot of the vehicle. -/
def newBookingOf (vehicle : Vehicle) (newId startDate endDate renterId : String) :
    Booking :=
  { id := newId
    vehicleId := vehicle.id
    renterId := renterId
    startDate := startDate
    endDate := endDate
    totalPrice := vehicle.pricePerDay
    status := BookingStatus.confirmed
    vehicleSnapshot := vehicle
    review := none }

/-- handleBook (part_000 lines 1646-1662): appends the new booking; when
creditDeduction > 0 replaces the credits by Math.max(0, prev - creditDeduction). -/
def handleBook (vehicle : Vehicle) (creditDed : ℚ)
    (newId startDate endDate renterId : String) (s : AppState) : AppState :=
  { s with
    bookings := s.bookings ++ [newBookingOf vehicle newId startDate endDate renterId]
    userCredits :=
      if 0 < creditDed then max 0 (s.userCredits - creditDed) else s.userCredits }

/-- handleAddReview (part_000 lines 1664-1668): sets the review of the booking
with the given id. -/
def handleAddReview (id : String) (rating : ℤ) (comment createdAt : String)
    (s : AppState) : AppState :=
  { s with
    bookings := s.bookings.map fun b =>
      if b.id = id then
        { b with review := some { rating := rating, comment := comment, createdAt := createdAt } }
      else b }

/-- handleUpdateStatus (part_000 lines 1670-1672): sets the status of the
booking with the given id. -/
def handleUpdateStatus (id : String) (status : BookingStatus) (s : AppState) :
    AppState :=
  { s with
    bookings := s.bookings.map fun b =>
      if b.id = id then { b with status := status } else b }

/-- handleCancelBooking (part_000 lines 1674-1681): looks the booking up, adds
booking.totalPrice * 0.9 to the credits when found, then updates the status to
Cancelled. -/
def handleCancelBooking (id : String) (s : AppState) : AppState :=
  let afterRefund :=
    match s.bookings.find? (fun b => decide (b.id = id)) with
    | some booking =>
        { s with userCredits := s.userCredits + booking.totalPrice * (9 / 10) }
    | none => s
  handleUpdateStatus id BookingStatus.cancelled afterRefund

/-- handleAddVehicle (part_000 lines 1683-1685). -/
def handleAddVehicle (vehicle : Vehicle) (s : AppState) : AppState :=
  { s with vehicles := s.vehicles ++ [vehicle] }

/-- handleToggleAvailability (part_000 lines 1687-1689). -/
def handleToggleAvailability (id : String) (s : AppState) : AppState :=
  { s with
    vehicles := s.vehicles.map fun v =>
      if v.id = id then { v with isAvailable := !v.isAvailable } else v }

/-! ### Operations as reachable from the UI

The App handlers above are invoked only through view components, which gate
them on the status of the targeted booking (ReservationsPage, part_000):
the Cancelar button renders only when the status is Pending or Confirmed
(line 897); the Finalizar Viaje button renders only when the status is
In Progress and calls onUpdateStatus(id, FINISHED) (lines 906, 782); the
Calificar experiencia button renders only when the status is Finished and no
review is present, and submission requires rating > 0 (lines 922, 787, 995).
The operations below pair each handler with the guard of its UI entry point. -/

/-- Cancellation as reachable from the UI (guard of part_000 line 897). -/
def cancelOp (id : String) (s : AppState) : AppState :=
  match s.bookings.find? (fun b => decide (b.id = id)) with
  | some b =>
      if b.status = BookingStatus.pending ∨ b.status = BookingStatus.confirmed then
        handleCancelBooking id s
      else s
  | none => s

/-- Finishing a rental as reachable from the UI (guard of part_000 line 906,
action of line 782). -/
def finishOp (id : String) (s : AppState) : AppState :=
  match s.bookings.find? (fun b => decide (b.id = id)) with
  | some b =>
      if b.status = BookingStatus.inProgress then
        handleUpdateStatus id BookingStatus.finished s
      else s
  | none => s

/-- Review submission as reachable from the UI (guards of part_000 lines 922
and 787). -/
def reviewOp (id : String) (rating : ℤ) (comment createdAt : String)
    (s : AppState) : AppState :=
  match s.bookings.find? (fun b => decide (b.id = id)) with
  | some b =>
      if b.status = BookingStatus.finished ∧ b.review = none ∧ 0 < rating then
        handleAddReview id rating comment createdAt s
      else s
  | none => s

/-- Booking as reachable from the UI: VehicleDetailPage computes the credit
deduction from the current credits and the price (part_000 lines 579-586) and
passes it to onBook. -/
def bookOp (vehicle : Vehicle) (useCredits : Bool)
    (newId startDate endDate renterId : String) (s : AppState) : AppState :=
  handleBook vehicle (creditDeduction useCredits s.userCredits vehicle.pricePerDay)
    newId startDate endDate renterId s

/-- The state-mutating operations reachable from the views (part_000
lines 1699-1708). -/
inductive Op
  | book (vehicle : Vehicle) (useCredits : Bool)
      (newId startDate endDate renterId : String)
  | cancel (id : String)
  | finish (id : String)
  | review (id : String) (rating : ℤ) (comment createdAt : String)
  | addVehicle (vehicle : Vehicle)
  | toggleAvailability (id : String)

/-- One step of the application: dispatch an operation to its handler. -/
def step : Op → AppState → AppState
  | Op.book v uc i sd ed r => bookOp v uc i sd ed r
  | Op.cancel i => cancelOp i
  | Op.finish i => finishOp i
  | Op.review i rt c t => reviewOp i rt c t
  | Op.addVehicle v => handleAddVehicle v
  | Op.toggleAvailability i => handleToggleAvailability i

/-! ### Image validation (part_000 lines 61-108) and upload flow (lines 160-211) -/

/-- Result shape of validateImageWithGemini. -/
structure ValidationVerdict where
  isValid : Bool
  reason : Option String
deriving DecidableEq

/-- Environment outcomes of the external classification call, one per branch
of validateImageWithGemini (part_000 lines 61-108): missing API key (line 62),
data-URI regex failure (line 70), the call throwing (line 104), a response
with no text (line 101), JSON.parse throwing on the text (line 103 landing in
the catch), or a parsed structured verdict. -/
inductive GeminiOutcome
  | noApiKey
  | invalidImageFormat
  | transportError
  | emptyResponse
  | unparseableResponse
  | parsed (isValid : Bool) (reason : Option String)
deriving DecidableEq

/-- validateImageWithGemini (part_000 lines 61-108), as a function of the
environment outcome of the call. -/
def validateImageWithGemini : GeminiOutcome → ValidationVerdict
  | GeminiOutcome.noApiKey => { isValid := true, reason := none }
  | GeminiOutcome.invalidImageFormat =>
      { isValid := false, reason := some "Invalid image format" }
  | GeminiOutcome.transportError => { isValid := true, reason := none }
  | GeminiOutcome.emptyResponse =>
      { isValid := false, reason := some "No response from AI" }
  | GeminiOutcome.unparseableResponse => { isValid := true, reason := none }
  | GeminiOutcome.parsed isValid reason => { isValid := isValid, reason := reason }

/-- Upload status of ImageUploadBox (part_000 line 156). -/
inductive UploadStatus
  | idle
  | uploading
  | analyzing
  | success
  | error
deriving DecidableEq

/-- Validation type tag passed to the classifier (part_000 line 153). -/
inductive ValidationType
  | vehicle
  | document
  | face
deriving DecidableEq

/-- Outcome of the asynchronous fileToBase64 encoding (part_000 line 187). -/
inductive EncodeResult
  | ok
  | err
deriving DecidableEq

/-- Accepted MIME types (part_000 line 169). -/
def allowedMimeTypes : List String := ["image/jpeg", "image/png", "image/webp"]

/-- Final observable outcome of one run of handleFileChange: the resulting
status, the error message, and whether the classification call was issued. -/
structure UploadResult where
  status : UploadStatus
  errorMsg : Option String
  classifierCalled : Bool
deriving DecidableEq

/-- handleFileChange (part_000 lines 160-211), as a function of the selected
file size and MIME type, the validation tag, and the outcomes of the
encoding and of the classification call.  The intermediate uploading and
analyzing statuses are transient; the function returns the state in which the
run ends. -/
def handleFileChange (size : ℕ) (fileType : String)
    (validationType : Option ValidationType) (enc : EncodeResult)
    (outcome : GeminiOutcome) : UploadResult :=
  if 5 * 1024 * 1024 < size then
    { status := UploadStatus.error
      errorMsg := some "El archivo excede 5MB"
      classifierCalled := false }
  else if fileType ∉ allowedMimeTypes then
    { status := UploadStatus.error
      errorMsg := some "Solo formatos JPG o PNG"
      classifierCalled := false }
  else
    match enc with
    | EncodeResult.err =>
        { status := UploadStatus.error
          errorMsg := some "Error al procesar"
          classifierCalled := false }
    | EncodeResult.ok =>
        match validationType with
        | some _ =>
            let aiResult := validateImageWithGemini outcome
            if aiResult.isValid then
              { status := UploadStatus.success
                errorMsg := none
                classifierCalled := true }
            else
              { status := UploadStatus.error
                errorMsg := some (aiResult.reason.getD "Imagen no válida")
                classifierCalled := true }
        | none =>
            { status := UploadStatus.success
              errorMsg := none
              classifierCalled := false }

/-! ### Owner onboarding (MyVehiclesPage, part_000 lines 1380-1408) -/

/-- Wizard state newCarData, a partial vehicle record: the fields the owner
may have filled in.  Fields that handleSubmitVehicle overrides are carried as
options so that the override is proved regardless of the submitted value. -/
structure NewCarData where
  make : String
  model : String
  year : ℤ
  category : VehicleCategory
  pricePerDay : ℚ
  features : VehicleFeatures
  discounts : Option VehicleDiscounts
  verification : Option VehicleVerification
  imageUrl : Option String
  location : Option String
  isAvailable : Option Bool
  verificationStatus : Option VerificationStatus
deriving DecidableEq

/-- handleSubmitVehicle (part_000 lines 1380-1389): spreads the wizard data
and then overrides id, ownerId, isAvailable, verificationStatus, and the
imageUrl and location fallbacks, so the overrides always win. -/
def handleSubmitVehicle (newCarData : NewCarData) (newId : String) : Vehicle :=
  { id := newId
    ownerId := "current"
    make := newCarData.make
    model := newCarData.model
    year := newCarData.year
    category := newCarData.category
    pricePerDay := newCarData.pricePerDay
    imageUrl := newCarData.imageUrl.getD
      "https://images.unsplash.com/photo-1533473359331-0135ef1b58bf?auto=format&fit=crop&w=800&q=80"
    location := newCarData.location.getD "Bogotá"
    isAvailable := true
    verificationStatus := VerificationStatus.verified
    features := newCarData.features
    discounts := newCarData.discounts
    verification := newCarData.verification }

/-- Visibility filter of the home and search listings (part_000 lines 341 and
472): verified and available. -/
def searchableVehicles (vehicles : List Vehicle) : List Vehicle :=
  vehicles.filter fun v =>
    decide (v.verificationStatus = VerificationStatus.verified) && v.isAvailable

/-! ### Concrete fixtures, from constants.ts -/

/-- Toyota Fortuner, MOCK_VEHICLES entry v2 of constants.ts. -/
def mockVehicle2 : Vehicle :=
  { id := "v2"
    ownerId := "o2"
    make := "Toyota"
    model := "Fortuner"
    year := 2022
    category := VehicleCategory.suv
    pricePerDay := 380000
    imageUrl := "https://images.unsplash.com/photo-1519641471654-76ce0107ad1b?auto=format&fit=crop&w=800&q=80"
    location := "Medellín"
    isAvailable := true
    verificationStatus := VerificationStatus.verified
    features :=
      { transmission := "Automática"
        fuel := "Gasolina"
        passengers := 7
        hasAC := true
        hasGPS := true
        hasBluetooth := true
        hasReverseCamera := true
        hasAndroidAuto := true
        hasSunroof := false
        hasBabySeat := false
        is4x4 := true }
    discounts := some { weekly := 5, biweekly := 10, monthly := 20 }
    verification := none }

/-- Mazda 3, MOCK_VEHICLES entry v4 of constants.ts. -/
def mockVehicle4 : Vehicle :=
  { id := "v4"
    ownerId := "o1"
    make := "Mazda"
    model := "3"
    year := 2020
    category := VehicleCategory.standard
    pricePerDay := 180000
    imageUrl := "https://images.unsplash.com/photo-1549317661-bd32c8ce0db2?auto=format&fit=crop&w=800&q=80"
    location := "Bogotá"
    isAvailable := true
    verificationStatus := VerificationStatus.verified
    features :=
      { transmission := "Automática"
        fuel := "Gasolina"
        passengers := 5
        hasAC := true
        hasGPS := true
        hasBluetooth := true
        hasReverseCamera := true
        hasAndroidAuto := true
        hasSunroof := true
        hasBabySeat := true
        is4x4 := false }
    discounts := some { weekly := 10, biweekly := 15, monthly := 30 }
    verification := none }

/-- MOCK_BOOKINGS entry b1 of constants.ts: Confirmed, totalPrice 1900000. -/
def mockBooking1 : Booking :=
  { id := "b1"
    vehicleId := "v2"
    renterId := "current"
    startDate := "2023-11-10"
    endDate := "2023-11-15"
    totalPrice := 1900000
    status := BookingStatus.confirmed
    vehicleSnapshot := mockVehicle2
    review := none }

/-- MOCK_BOOKINGS entry b2 of constants.ts: Pending, totalPrice 720000. -/
def mockBooking2 : Booking :=
  { id := "b2"
    vehicleId := "v4"
    renterId := "current"
    startDate := "2023-12-01"
    endDate := "2023-12-05"
    totalPrice := 720000
    status := BookingStatus.pending
    vehicleSnapshot := mockVehicle4
    review := none }

/-- Concrete application state used by the witnesses: the initial bookings
and credits balance of App (part_000 lines 1628 and 1644); the vehicles list
carries the two snapshotted mock vehicles. -/
def state0 : AppState :=
  { vehicles := [mockVehicle2, mockVehicle4]
    bookings := [mockBooking1, mockBooking2]
    userCredits := 150000 }

/-! ### Property vocabulary -/

/-- Status transition edges allowed by the specification: Pending/Confirmed
to Cancelled, Confirmed/InProgress to Finished. -/
def allowedEdge : BookingStatus → BookingStatus → Bool
  | BookingStatus.pending, BookingStatus.cancelled => true
  | BookingStatus.confirmed, BookingStatus.cancelled => true
  | BookingStatus.confirmed, BookingStatus.finished => true
  | BookingStatus.inProgress, BookingStatus.finished => true
  | _, _ => false

/-- Safety of one observed status change of a booking: any change runs along
an allowed edge, terminal statuses never change, and Cancelled is reached
only from Pending or Confirmed. -/
def statusChangeOK (before after : BookingStatus) : Prop :=
  (after ≠ before → allowedEdge before after = true) ∧
  ((before = BookingStatus.cancelled ∨ before = BookingStatus.finished) →
      after = before) ∧
  (after = BookingStatus.cancelled →
      before = BookingStatus.cancelled ∨ before = BookingStatus.pending
        ∨ before = BookingStatus.confirmed)

/-- Ledger precondition: non-negative credits balance and non-negative
totalPrice on every booking. -/
def CreditsInv (s : AppState) : Prop :=
  0 ≤ s.userCredits ∧ ∀ b ∈ s.bookings, 0 ≤ b.totalPrice

/-! ### Claims -/

/-- C1: for every credits balance `credits ≥ 0`, every `price > 0` and every
value of the applyCredits toggle, the checkout split satisfies
creditDeduction = (if applyCredits then min credits price else 0) and
cardCharge = price - creditDeduction, hence creditDeduction + cardCharge =
price; in particular credits 150000, price 450000, applyCredits true gives
deduction 150000 and card charge 300000. -/
theorem C1_payment_split (credits price : ℚ) (applyCredits : Bool)
    (hc : 0 ≤ credits) (hp : 0 < price) :
    creditDeduction applyCredits credits price
        = (if applyCredits then min credits price else 0) ∧
    cardCharge applyCredits credits price
        = price - creditDeduction applyCredits credits price ∧
    creditDeduction applyCredits credits price
        + cardCharge applyCredits credits price = price ∧
    creditDeduction true 150000 450000 = 150000 ∧
    cardCharge true 150000 450000 = 300000 := by
  refine ⟨rfl, rfl, ?_, ?_, ?_⟩
  · unfold cardCharge; ring
  · norm_num [creditDeduction, min_def]
  · norm_num [cardCharge, creditDeduction, min_def]

/-- Witness for C1 at credits 150000, price 450000, applyCredits true. -/
theorem C1_payment_split_witness :
    (0 : ℚ) ≤ 150000 ∧ (0 : ℚ) < 450000 ∧
    creditDeduction true 150000 450000 = 150000 ∧
    cardCharge true 150000 450000 = 300000 := by
  refine ⟨by norm_num, by norm_num, ?_, ?_⟩
  · exact (C1_payment_split 150000 450000 true (by norm_num) (by norm_num)).2.2.2.1
  · exact (C1_payment_split 150000 450000 true (by norm_num) (by norm_num)).2.2.2.2

/-- C2: cancelling a booking with totalPrice P adds exactly 0.9 times P to the
credits balance and sets the status of that booking to Cancelled. -/
theorem C2_cancel_refund (s : AppState) (id : String) (b bAfter : Booking)
    (hfind : s.bookings.find? (fun bk => decide (bk.id = id)) = some b)
    (hmem : bAfter ∈ (handleCancelBooking id s).bookings)
    (hid : bAfter.id = id) :
    (handleCancelBooking id s).userCredits
        = s.userCredits + b.totalPrice * (9 / 10) ∧
    bAfter.status = BookingStatus.cancelled := by
  constructor
  · simp only [handleCancelBooking, handleUpdateStatus, hfind]
  · have hbk : (handleCancelBooking id s).bookings
        = s.bookings.map fun bk =>
            if bk.id = id then { bk with status := BookingStatus.cancelled } else bk := by
      simp only [handleCancelBooking, handleUpdateStatus, hfind]
    rw [hbk] at hmem
    rcases List.mem_map.mp hmem with ⟨a, -, ha⟩
    by_cases h : a.id = id
    · rw [if_pos h] at ha; rw [← ha]
    · rw [if_neg h] at ha; exact absurd (ha ▸ hid) h

/-- Witness for C2: cancelling mock booking b1 (totalPrice 1900000) from the
initial state adds exactly 1710000 credits and marks it Cancelled. -/
theorem C2_cancel_refund_witness :
    (handleCancelBooking "b1" state0).userCredits
        = state0.userCredits + mockBooking1.totalPrice * (9 / 10) ∧
    state0.userCredits + mockBooking1.totalPrice * (9 / 10) = 1860000 ∧
    mockBooking1.totalPrice * ((9 : ℚ) / 10) = 1710000 ∧
    ({ mockBooking1 with status := BookingStatus.cancelled } : Booking).status
        = BookingStatus.cancelled := by
  have h := C2_cancel_refund state0 "b1" mockBooking1
      ({ mockBooking1 with status := BookingStatus.cancelled }) (by rfl) (by decide) (by rfl)
  exact ⟨h.1, by norm_num [state0, mockBooking1], by norm_num [mockBooking1], h.2⟩

/-- C4: the review operation applied to a booking that is not Finished, or
that already holds a review, leaves the state (hence that booking) unchanged. -/
theorem C4_review_once (s : AppState) (id : String) (rating : ℤ)
    (comment createdAt : String) (b : Booking)
    (hfind : s.bookings.find? (fun bk => decide (bk.id = id)) = some b)
    (h : b.status ≠ BookingStatus.finished ∨ b.review ≠ none) :
    reviewOp id rating comment createdAt s = s := by
  simp only [reviewOp, hfind]
  rw [if_neg]
  rintro ⟨h1, h2, -⟩
  rcases h with h | h
  · exact h h1
  · exact h h2

/-- Witness for C4: reviewing the Confirmed mock booking b1 is a no-op. -/
theorem C4_review_once_witness :
    reviewOp "b1" 5 "great" "2024-01-01" state0 = state0 :=
  C4_review_once state0 "b1" 5 "great" "2024-01-01" mockBooking1 (by rfl)
    (Or.inl (by decide))

/-- C7: booking creation appends a booking with status Confirmed and
totalPrice = vehicle.pricePerDay, independent of the date range, and its only
effect on the credits balance is to decrement it by the deduction, floored at
zero; the vehicles list is unchanged. -/
theorem C7_booking_creation (s : AppState) (vehicle : Vehicle) (creditDed : ℚ)
    (newId startDate endDate renterId : String)
    (hc : 0 ≤ s.userCredits) (hd : 0 ≤ creditDed) :
    (handleBook vehicle creditDed newId startDate endDate renterId s).bookings
        = s.bookings ++ [newBookingOf vehicle newId startDate endDate renterId] ∧
    (newBookingOf vehicle newId startDate endDate renterId).status
        = BookingStatus.confirmed ∧
    (newBookingOf vehicle newId startDate endDate renterId).totalPrice
        = vehicle.pricePerDay ∧
    (handleBook vehicle creditDed newId startDate endDate renterId s).userCredits
        = max 0 (s.userCredits - creditDed) ∧
    (handleBook vehicle creditDed newId startDate endDate renterId s).vehicles
        = s.vehicles := by
  refine ⟨rfl, rfl, rfl, ?_, rfl⟩
  simp only [handleBook]
  by_cases h : 0 < creditDed
  · rw [if_pos h]
  · rw [if_neg h]
    have h0 : creditDed = 0 := le_antisymm (not_lt.mp h) hd
    rw [h0, sub_zero, max_eq_right hc]

/-- Witness for C7: booking the Fortuner with a 150000 deduction from the
initial state. -/
theorem C7_booking_creation_witness :
    (0 : ℚ) ≤ state0.userCredits ∧ (0 : ℚ) ≤ 150000 ∧
    (handleBook mockVehicle2 150000 "b3" "2024-01-01" "2024-01-02" "u1" state0).userCredits
        = max 0 (state0.userCredits - 150000) ∧
    (newBookingOf mockVehicle2 "b3" "2024-01-01" "2024-01-02" "u1").status
        = BookingStatus.confirmed ∧
    (newBookingOf mockVehicle2 "b3" "2024-01-01" "2024-01-02" "u1").totalPrice
        = mockVehicle2.pricePerDay := by
  have h := C7_booking_creation state0 mockVehicle2 150000 "b3" "2024-01-01"
      "2024-01-02" "u1" (by norm_num [state0]) (by norm_num)
  exact ⟨by norm_num [state0], by norm_num, h.2.2.2.1, h.2.1, h.2.2.1⟩

/-- C10: every vehicle published by the onboarding wizard has
verificationStatus verified and isAvailable true, regardless of the submitted
data, and therefore passes the visibility filter of the home and search
listings as soon as it is added. -/
theorem C10_publish_immediately_visible (d : NewCarData) (newId : String)
    (s : AppState) :
    (handleSubmitVehicle d newId).verificationStatus = VerificationStatus.verified ∧
    (handleSubmitVehicle d newId).isAvailable = true ∧
    handleSubmitVehicle d newId
      ∈ searchableVehicles ((handleAddVehicle (handleSubmitVehicle d newId) s).vehicles) := by
  refine ⟨rfl, rfl, ?_⟩
  unfold searchableVehicles handleAddVehicle
  rw [List.mem_filter]
  exact ⟨List.mem_append_right _ (List.mem_singleton.mpr rfl), by simp [handleSubmitVehicle]⟩

/-- Counterexample to C5 as stated: a classifier response carrying no text is
a malformed response, yet validateImageWithGemini returns isValid false
(part_000 line 101), and a valid 1 MB JPEG upload whose classification ends in
that outcome lands in the error state. -/
theorem C5_fail_open_counterexample :
    (validateImageWithGemini GeminiOutcome.emptyResponse).isValid = false ∧
    (handleFileChange 1000000 "image/jpeg" (some ValidationType.vehicle)
        EncodeResult.ok GeminiOutcome.emptyResponse).status = UploadStatus.error := by
  constructor
  · rfl
  · decide

/-- C5 (amended): when the classification call is unavailable (no API key),
throws, or returns text that fails to parse, validateImageWithGemini returns
isValid true (fail-open); a response with no extractable text instead returns
isValid false with reason No response from AI. -/
theorem C5_fail_open (o : GeminiOutcome)
    (h : o = GeminiOutcome.noApiKey ∨ o = GeminiOutcome.transportError
        ∨ o = GeminiOutcome.unparseableResponse) :
    (validateImageWithGemini o).isValid = true ∧
    (validateImageWithGemini GeminiOutcome.emptyResponse).isValid = false := by
  refine ⟨?_, rfl⟩
  rcases h with h | h | h <;> rw [h] <;> rfl

/-- Witness for C5 (amended) at the transport-error outcome. -/
theorem C5_fail_open_witness :
    (GeminiOutcome.transportError = GeminiOutcome.noApiKey
        ∨ GeminiOutcome.transportError = GeminiOutcome.transportError
        ∨ GeminiOutcome.transportError = GeminiOutcome.unparseableResponse) ∧
    (validateImageWithGemini GeminiOutcome.transportError).isValid = true :=
  ⟨Or.inr (Or.inl rfl),
   (C5_fail_open GeminiOutcome.transportError (Or.inr (Or.inl rfl))).1⟩

/-- C6: a file larger than 5 MiB, or whose MIME type is not jpeg, png or
webp, ends the upload run in the error state and issues no classification
call. -/
theorem C6_file_gate (size : ℕ) (fileType : String)
    (validationType : Option ValidationType) (enc : EncodeResult)
    (outcome : GeminiOutcome)
    (h : 5 * 1024 * 1024 < size ∨ fileType ∉ allowedMimeTypes) :
    (handleFileChange size fileType validationType enc outcome).status
        = UploadStatus.error ∧
    (handleFileChange size fileType validationType enc outcome).classifierCalled
        = false := by
  by_cases h1 : 5 * 1024 * 1024 < size
  · simp [handleFileChange, h1]
  · have h2 : fileType ∉ allowedMimeTypes := h.resolve_left h1
    simp [handleFileChange, h1, h2]

/-- Witness for C6: a 6 MB JPEG is rejected with the size-limit message and
no classification call, even with a permissive classifier outcome at hand. -/
theorem C6_file_gate_witness :
    (5 * 1024 * 1024 < 6000000 ∨ "image/jpeg" ∉ allowedMimeTypes) ∧
    (handleFileChange 6000000 "image/jpeg" (some ValidationType.vehicle)
        EncodeResult.ok (GeminiOutcome.parsed true none)).status
        = UploadStatus.error ∧
    (handleFileChange 6000000 "image/jpeg" (some ValidationType.vehicle)
        EncodeResult.ok (GeminiOutcome.parsed true none)).classifierCalled
        = false ∧
    (handleFileChange 6000000 "image/jpeg" (some ValidationType.vehicle)
        EncodeResult.ok (GeminiOutcome.parsed true none)).errorMsg
        = some "El archivo excede 5MB" := by
  have h := C6_file_gate 6000000 "image/jpeg" (some ValidationType.vehicle)
      EncodeResult.ok (GeminiOutcome.parsed true none) (Or.inl (by norm_num))
  exact ⟨Or.inl (by norm_num), h.1, h.2, by decide⟩

/-! ### Helper lemmas shared by the remaining claims -/

/-- A reflexive status change is always safe. -/
theorem statusChangeOK_refl (st : BookingStatus) : statusChangeOK st st :=
  ⟨fun hne => absurd rfl hne, fun _ => rfl, fun ha => Or.inl ha⟩

/-- Elements found by getElem? are members. -/
theorem mem_of_getElem?_some {α : Type} {l : List α} {i : ℕ} {a : α}
    (h : l[i]? = some a) : a ∈ l := by
  rcases List.getElem?_eq_some.mp h with ⟨hl, heq⟩
  exact heq ▸ List.getElem_mem hl

/-- Positional reading of a mapped list. -/
theorem getElem?_some_of_map {l : List Booking} {f : Booking → Booking} {i : ℕ}
    {b bAfter : Booking} (hb : l[i]? = some b)
    (hmap : (l.map f)[i]? = some bAfter) : bAfter = f b := by
  rw [List.getElem?_map, hb] at hmap
  exact (Option.some_inj.mp hmap).symm

/-- Two positional readings of the same list agree up to a safe (trivial)
status change. -/
theorem statusChangeOK_of_same {l : List Booking} {i : ℕ} {b bAfter : Booking}
    (hb : l[i]? = some b) (hb' : l[i]? = some bAfter) :
    statusChangeOK b.status bAfter.status := by
  rw [hb] at hb'
  cases Option.some_inj.mp hb'
  exact statusChangeOK_refl b.status

/-- With pairwise-distinct booking ids, any member carrying the looked-up id
is the booking that find? returns. -/
theorem eq_found_of_nodup_ids {l : List Booking} {id : String} {b bFound : Booking}
    (hnd : (l.map Booking.id).Nodup)
    (hfind : l.find? (fun x => decide (x.id = id)) = some bFound)
    (hb : b ∈ l) (hid : b.id = id) : b = bFound := by
  have h₀ : bFound ∈ l := List.mem_of_find?_eq_some hfind
  have h₁ : bFound.id = id := by
    have := List.find?_some hfind
    simpa using this
  exact List.inj_on_of_nodup_map hnd hb h₀ (by rw [hid, h₁])

/-- The bookings list after handleCancelBooking, whatever find? returned. -/
theorem handleCancelBooking_bookings (id : String) (s : AppState) :
    (handleCancelBooking id s).bookings = s.bookings.map fun b =>
      if b.id = id then { b with status := BookingStatus.cancelled } else b := by
  unfold handleCancelBooking
  split <;> rfl

/-- Case analysis of the UI-gated cancellation. -/
theorem cancelOp_cases (id : String) (s : AppState) :
    cancelOp id s = s ∨
    ∃ bFound, s.bookings.find? (fun b => decide (b.id = id)) = some bFound ∧
      (bFound.status = BookingStatus.pending
        ∨ bFound.status = BookingStatus.confirmed) ∧
      cancelOp id s = handleCancelBooking id s := by
  rcases hf : s.bookings.find? (fun b => decide (b.id = id)) with - | bFound
  · left
    unfold cancelOp
    rw [hf]
  · by_cases hg : bFound.status = BookingStatus.pending
        ∨ bFound.status = BookingStatus.confirmed
    · right
      exact ⟨bFound, hf, hg, by unfold cancelOp; rw [hf]; exact if_pos hg⟩
    · left
      unfold cancelOp
      rw [hf]
      exact if_neg hg

/-- Case analysis of the UI-gated rental completion. -/
theorem finishOp_cases (id : String) (s : AppState) :
    finishOp id s = s ∨
    ∃ bFound, s.bookings.find? (fun b => decide (b.id = id)) = some bFound ∧
      bFound.status = BookingStatus.inProgress ∧
      finishOp id s = handleUpdateStatus id BookingStatus.finished s := by
  rcases hf : s.bookings.find? (fun b => decide (b.id = id)) with - | bFound
  · left
    unfold finishOp
    rw [hf]
  · by_cases hg : bFound.status = BookingStatus.inProgress
    · right
      exact ⟨bFound, hf, hg, by unfold finishOp; rw [hf]; exact if_pos hg⟩
    · left
      unfold finishOp
      rw [hf]
      exact if_neg hg

/-- Case analysis of the UI-gated review submission. -/
theorem reviewOp_cases (id : String) (rating : ℤ) (comment createdAt : String)
    (s : AppState) :
    reviewOp id rating comment createdAt s = s ∨
    reviewOp id rating comment createdAt s
      = handleAddReview id rating comment createdAt s := by
  rcases hf : s.bookings.find? (fun b => decide (b.id = id)) with - | bFound
  · left
    unfold reviewOp
    rw [hf]
  · by_cases hg : bFound.status = BookingStatus.finished ∧ bFound.review = none
        ∧ 0 < rating
    · right
      unfold reviewOp
      rw [hf]
      exact if_pos hg
    · left
      unfold reviewOp
      rw [hf]
      exact if_neg hg

/-- The userCredits balance after handleCancelBooking when the booking is
found. -/
theorem handleCancelBooking_userCredits (id : String) (s : AppState)
    (b : Booking)
    (hfind : s.bookings.find? (fun bk => decide (bk.id = id)) = some b) :
    (handleCancelBooking id s).userCredits
        = s.userCredits + b.totalPrice * (9 / 10) := by
  simp only [handleCancelBooking, handleUpdateStatus, hfind]

/-- The bookings list after handleUpdateStatus, read as a map. -/
theorem handleUpdateStatus_bookings (id : String) (st : BookingStatus)
    (s : AppState) :
    (handleUpdateStatus id st s).bookings = s.bookings.map fun b =>
      if b.id = id then { b with status := st } else b := rfl

/-- The bookings list after handleAddReview, read as a map. -/
theorem handleAddReview_bookings (id : String) (rating : ℤ)
    (comment createdAt : String) (s : AppState) :
    (handleAddReview id rating comment createdAt s).bookings
      = s.bookings.map fun b =>
        if b.id = id then
          { b with review := some { rating := rating, comment := comment, createdAt := createdAt } }
        else b := rfl

/-- Safety of the Pending-to-Cancelled edge. -/
theorem statusChangeOK_pending_cancelled :
    statusChangeOK BookingStatus.pending BookingStatus.cancelled :=
  ⟨fun _ => rfl, by rintro (h | h) <;> exact BookingStatus.noConfusion h,
   fun _ => Or.inr (Or.inl rfl)⟩

/-- Safety of the Confirmed-to-Cancelled edge. -/
theorem statusChangeOK_confirmed_cancelled :
    statusChangeOK BookingStatus.confirmed BookingStatus.cancelled :=
  ⟨fun _ => rfl, by rintro (h | h) <;> exact BookingStatus.noConfusion h,
   fun _ => Or.inr (Or.inr rfl)⟩

/-- Safety of the InProgress-to-Finished edge. -/
theorem statusChangeOK_inProgress_finished :
    statusChangeOK BookingStatus.inProgress BookingStatus.finished :=
  ⟨fun _ => rfl, by rintro (h | h) <;> exact BookingStatus.noConfusion h,
   fun h => BookingStatus.noConfusion h⟩

/-- C3: in every state with pairwise-distinct booking ids, every UI-reachable
operation changes the status of each existing booking only along the edges
Pending to Cancelled, Confirmed to Cancelled, Confirmed to Finished,
InProgress to Finished; Cancelled and Finished bookings never change status;
and Cancelled is reached only from Pending or Confirmed. -/
theorem C3_status_transitions (op : Op) (s : AppState) (i : ℕ)
    (b bAfter : Booking)
    (hnd : (s.bookings.map Booking.id).Nodup)
    (hb : s.bookings[i]? = some b)
    (hb' : (step op s).bookings[i]? = some bAfter) :
    statusChangeOK b.status bAfter.status := by
  cases op with
  | book v uc newId sd ed r =>
      dsimp only [step, bookOp, handleBook] at hb'
      have hlt : i < s.bookings.length := by
        rcases List.getElem?_eq_some.mp hb with ⟨hl, -⟩
        exact hl
      rw [List.getElem?_append_left hlt] at hb'
      exact statusChangeOK_of_same hb hb'
  | cancel id =>
      dsimp only [step] at hb'
      rcases cancelOp_cases id s with hc | ⟨bF, hf, hg, hc⟩
      · rw [hc] at hb'
        exact statusChangeOK_of_same hb hb'
      · rw [hc, handleCancelBooking_bookings] at hb'
        have hfb := getElem?_some_of_map hb hb'
        by_cases hbid : b.id = id
        · rw [if_pos hbid] at hfb
          have hbb : b = bF :=
            eq_found_of_nodup_ids hnd hf (mem_of_getElem?_some hb) hbid
          have hstA : bAfter.status = BookingStatus.cancelled := by rw [hfb]
          have hstB : b.status = BookingStatus.pending
              ∨ b.status = BookingStatus.confirmed := by
            rw [hbb]; exact hg
          rw [hstA]
          rcases hstB with hst | hst <;> rw [hst]
          · exact statusChangeOK_pending_cancelled
          · exact statusChangeOK_confirmed_cancelled
        · rw [if_neg hbid] at hfb
          rw [hfb]
          exact statusChangeOK_refl b.status
  | finish id =>
      dsimp only [step] at hb'
      rcases finishOp_cases id s with hc | ⟨bF, hf, hg, hc⟩
      · rw [hc] at hb'
        exact statusChangeOK_of_same hb hb'
      · rw [hc, handleUpdateStatus_bookings] at hb'
        have hfb := getElem?_some_of_map hb hb'
        by_cases hbid : b.id = id
        · rw [if_pos hbid] at hfb
          have hbb : b = bF :=
            eq_found_of_nodup_ids hnd hf (mem_of_getElem?_some hb) hbid
          have hstA : bAfter.status = BookingStatus.finished := by rw [hfb]
          have hstB : b.status = BookingStatus.inProgress := by rw [hbb]; exact hg
          rw [hstA, hstB]
          exact statusChangeOK_inProgress_finished
        · rw [if_neg hbid] at hfb
          rw [hfb]
          exact statusChangeOK_refl b.status
  | review id rt c t =>
      dsimp only [step] at hb'
      rcases reviewOp_cases id rt c t s with hc | hc
      · rw [hc] at hb'
        exact statusChangeOK_of_same hb hb'
      · rw [hc, handleAddReview_bookings] at hb'
        have hfb := getElem?_some_of_map hb hb'
        have hstA : bAfter.status = b.status := by
          rw [hfb]
          by_cases hbid : b.id = id
          · rw [if_pos hbid]
          · rw [if_neg hbid]
        rw [hstA]
        exact statusChangeOK_refl b.status
  | addVehicle v =>
      dsimp only [step, handleAddVehicle] at hb'
      exact statusChangeOK_of_same hb hb'
  | toggleAvailability id =>
      dsimp only [step, handleToggleAvailability] at hb'
      exact statusChangeOK_of_same hb hb'

/-- Witness for C3: cancelling the Confirmed mock booking b1 in the initial
state moves it to Cancelled along an allowed edge. -/
theorem C3_status_transitions_witness :
    (state0.bookings.map Booking.id).Nodup ∧
    state0.bookings[0]? = some mockBooking1 ∧
    (step (Op.cancel "b1") state0).bookings[0]?
        = some { mockBooking1 with status := BookingStatus.cancelled } ∧
    statusChangeOK mockBooking1.status
        ({ mockBooking1 with status := BookingStatus.cancelled } : Booking).status := by
  refine ⟨by decide, by rfl, by rfl, ?_⟩
  exact C3_status_transitions (Op.cancel "b1") state0 0 mockBooking1
      ({ mockBooking1 with status := BookingStatus.cancelled }) (by decide) (by rfl) (by rfl)

/-- C8: from any state satisfying the ledger precondition, every operation
keeps the credits balance non-negative, and the deduction computed at
checkout is capped at min(available credits, charge amount). -/
theorem C8_credits_nonneg (s : AppState) (op : Op) (uc : Bool) (v : Vehicle)
    (h : CreditsInv s) (hp : 0 ≤ v.pricePerDay) :
    0 ≤ (step op s).userCredits ∧
    creditDeduction uc s.userCredits v.pricePerDay
        ≤ min s.userCredits v.pricePerDay := by
  constructor
  · cases op with
    | book v' uc' newId sd ed r =>
        show 0 ≤ (bookOp v' uc' newId sd ed r s).userCredits
        dsimp only [bookOp, handleBook]
        split
        · exact le_max_left 0 _
        · exact h.1
    | cancel id =>
        show 0 ≤ (cancelOp id s).userCredits
        rcases cancelOp_cases id s with hc | ⟨bF, hf, -, hc⟩
        · rw [hc]
          exact h.1
        · rw [hc, handleCancelBooking_userCredits id s bF hf]
          have htp : 0 ≤ bF.totalPrice := h.2 bF (List.mem_of_find?_eq_some hf)
          exact add_nonneg h.1 (mul_nonneg htp (by norm_num))
    | finish id =>
        show 0 ≤ (finishOp id s).userCredits
        rcases finishOp_cases id s with hc | ⟨bF, -, -, hc⟩ <;> rw [hc] <;> exact h.1
    | review id rt c t =>
        show 0 ≤ (reviewOp id rt c t s).userCredits
        rcases reviewOp_cases id rt c t s with hc | hc <;> rw [hc] <;> exact h.1
    | addVehicle v' => exact h.1
    | toggleAvailability id => exact h.1
  · cases uc with
    | false => exact le_min h.1 hp
    | true => exact le_refl _

/-- Witness for C8 at the initial state with the cancel operation. -/
theorem C8_credits_nonneg_witness :
    CreditsInv state0 ∧ (0 : ℚ) ≤ mockVehicle2.pricePerDay ∧
    0 ≤ (step (Op.cancel "b1") state0).userCredits ∧
    creditDeduction true state0.userCredits mockVehicle2.pricePerDay
        ≤ min state0.userCredits mockVehicle2.pricePerDay := by
  have hinv : CreditsInv state0 := by
    constructor
    · norm_num [state0]
    · intro b hb
      have hb2 : b ∈ [mockBooking1, mockBooking2] := hb
      rcases List.mem_cons.mp hb2 with rfl | hb3
      · norm_num [mockBooking1]
      · rcases List.mem_cons.mp hb3 with rfl | hb4
        · norm_num [mockBooking2]
        · exact absurd hb4 (List.not_mem_nil b)
  have h := C8_credits_nonneg state0 (Op.cancel "b1") true mockVehicle2 hinv
      (by norm_num [mockVehicle2])
  exact ⟨hinv, by norm_num [mockVehicle2], h.1, h.2⟩

/-- Take helper: mapped snapshots of a list are recovered whole by take. -/
theorem take_map_snapshot (l : List Booking) :
    ((l.map fun b => b.vehicleSnapshot).take l.length)
        = l.map fun b => b.vehicleSnapshot := by
  rw [← List.length_map l fun b => b.vehicleSnapshot]
  exact List.take_length _

/-- Take helper for a bookings list extended by one booking. -/
theorem take_map_snapshot_append (l : List Booking) (b : Booking) :
    (((l ++ [b]).map fun bk => bk.vehicleSnapshot).take l.length)
        = l.map fun bk => bk.vehicleSnapshot := by
  rw [List.map_append, ← List.length_map l fun bk => bk.vehicleSnapshot]
  exact List.take_left _ _

/-- A bookings transformation that preserves vehicleSnapshot preserves the
snapshot list. -/
theorem map_snapshot_of_preserve (l : List Booking) (f : Booking → Booking)
    (hf : ∀ b, (f b).vehicleSnapshot = b.vehicleSnapshot) :
    ((l.map f).map fun b => b.vehicleSnapshot)
        = l.map fun b => b.vehicleSnapshot := by
  induction l with
  | nil => rfl
  | cons a l ih => simp only [List.map_cons, hf, ih]

/-- C9: every operation, including status updates, review attachment and
vehicle-list mutation, leaves the vehicleSnapshot of every pre-existing
booking unchanged: the snapshot list of the first bookings is preserved. -/
theorem C9_snapshot_immutable (op : Op) (s : AppState) :
    (((step op s).bookings.map fun b => b.vehicleSnapshot).take s.bookings.length)
        = s.bookings.map fun b => b.vehicleSnapshot := by
  cases op with
  | book v uc newId sd ed r =>
      dsimp only [step, bookOp, handleBook]
      exact take_map_snapshot_append s.bookings _
  | cancel id =>
      dsimp only [step]
      rcases cancelOp_cases id s with hc | ⟨bF, -, -, hc⟩
      · rw [hc]
        exact take_map_snapshot s.bookings
      · rw [hc, handleCancelBooking_bookings,
          map_snapshot_of_preserve s.bookings _ (fun b => by split <;> rfl)]
        exact take_map_snapshot s.bookings
  | finish id =>
      dsimp only [step]
      rcases finishOp_cases id s with hc | ⟨bF, -, -, hc⟩
      · rw [hc]
        exact take_map_snapshot s.bookings
      · rw [hc, handleUpdateStatus_bookings,
          map_snapshot_of_preserve s.bookings _ (fun b => by split <;> rfl)]
        exact take_map_snapshot s.bookings
  | review id rt c t =>
      dsimp only [step]
      rcases reviewOp_cases id rt c t s with hc | hc
      · rw [hc]
        exact take_map_snapshot s.bookings
      · rw [hc, handleAddReview_bookings,
          map_snapshot_of_preserve s.bookings _ (fun b => by split <;> rfl)]
        exact take_map_snapshot s.bookings
  | addVehicle v =>
      dsimp only [step, handleAddVehicle]
      exact take_map_snapshot s.bookings
  | toggleAvailability id =>
      dsimp only [step, handleToggleAvailability]
      exact take_map_snapshot s.bookings

end Drivorent
